import Mathlib

/-!
# apexcov: login, coverage fetch and LCOV translation

A shallow embedding of `apexcov.go` and `login.go`.

* Go strings are Lean strings; the only string operations the program uses are
  concatenation, comparison with `""` and a prefix test against an ASCII literal.
* A Go `error` value is an `Option String`: `none` is `nil`, `some m` is an error
  whose `Error()` text is `m`.
* A run-time panic (dereferencing a nil pointer or nil interface) is the outcome
  `Run.crash`.
* The standard library and the outside world (flags, environment, HTTP transport,
  XML and JSON decoders, `url.Parse`, the filesystem) are the fields of `World`.
* The effects a run performs on the outside world are recorded in a list of `Event`s.
-/

set_option maxRecDepth 100000

namespace Apexcov

/-! ## Outcomes -/

/-- Outcome of running Go code that may panic: a returned value or a crash. -/
inductive Run (α : Type) where
  | done (a : α)
  | crash
  deriving DecidableEq, Repr

/-- Sequencing of outcomes: a crash aborts everything after it. -/
def Run.bind {α β : Type} (r : Run α) (f : α → Run β) : Run β :=
  match r with
  | Run.done a => f a
  | Run.crash => Run.crash

/-! ## Data model -/

/-- One element of `CoverageResponse.Records`. The nested structs
`ApexClassOrTrigger` and `Coverage` are flattened into `Name`, `CoveredLines`
and `UncoveredLines`. Line numbers are Go `int`s; no arithmetic is done on them,
so they are unbounded integers here. -/
structure Record where
  ID : String
  Name : String
  CoveredLines : List Int
  UncoveredLines : List Int
  deriving DecidableEq, Repr

/-- The decoded `ApexCodeCoverageAggregate` query response. -/
structure CoverageResponse where
  Records : List Record
  deriving DecidableEq, Repr

/-- What `os.Stat` returns: file info with a nil error, or a nil info with an
error that either satisfies `os.IsNotExist` or does not. -/
inductive StatResult where
  | info (isDir : Bool)
  | notExist
  | failed
  deriving DecidableEq, Repr

/-! ## Standard-library helpers -/

/-- Go `strings.HasPrefix(s, p)`: `len(s) >= len(p) && s[0:len(p)] == p`. -/
def HasPrefix (s p : String) : Bool :=
  decide (p.data.length ≤ s.data.length) && (s.data.take p.data.length == p.data)

/-- Go `strconv.Itoa`: decimal text of an integer, with a leading `-` when negative. -/
def Itoa (n : Int) : String :=
  match n with
  | Int.ofNat m => Nat.repr m
  | Int.negSucc m => "-" ++ Nat.repr (m + 1)

/-! ## `fileExists` and the translation loop of `apexcov` -/

/-- Go `fileExists`: `info, err := os.Stat(filename)`; returns `false` when
`os.IsNotExist(err)`, otherwise `!info.IsDir()`. When `os.Stat` fails for another
reason `info` is nil and the method call panics. -/
def fileExists (stat : String → StatResult) (filename : String) : Run Bool :=
  match stat filename with
  | StatResult.notExist => Run.done false
  | StatResult.info isDir => Run.done (!isDir)
  | StatResult.failed => Run.crash

/-- The `filePath` computed at the top of the loop body of `apexcov`. -/
def filePath (dir : String) (cls : Record) : String :=
  if HasPrefix cls.ID "01p" then
    dir ++ "/classes/" ++ cls.Name ++ ".cls"
  else
    dir ++ "/triggers/" ++ cls.Name ++ ".trigger"

/-- The loop `for _, line := range lines { body += "DA:" + strconv.Itoa(line) + tail }`,
where `tail` is `",1\n"` for the covered lines and `",0\n"` for the uncovered lines. -/
def appendLines (tail : String) (body : String) (lines : List Int) : String :=
  lines.foldl (fun acc line => acc ++ ("DA:" ++ Itoa line ++ tail)) body

/-- One iteration of `for _, class := range data.Records` in `apexcov`, as a
function from the value of `body` before the iteration to its value after. -/
def loopBody (dir : String) (stat : String → StatResult) (body : String) (cls : Record) :
    Run String :=
  let isClass := HasPrefix cls.ID "01p"
  let path := filePath dir cls
  (fileExists stat path).bind fun ex =>
    if ex then
      let b1 := if isClass then body ++ ("SF:" ++ path ++ "\n") else body ++ ("SF:" ++ path ++ "\n")
      let b2 := appendLines ",1\n" b1 cls.CoveredLines
      let b3 := appendLines ",0\n" b2 cls.UncoveredLines
      Run.done (b3 ++ "end_of_record\n")
    else
      Run.done body

/-- The whole loop over `data.Records`, started from a given `body`. -/
def loopFrom (dir : String) (stat : String → StatResult) (body : String) :
    List Record → Run String
  | [] => Run.done body
  | cls :: rest => (loopBody dir stat body cls).bind fun b => loopFrom dir stat b rest

/-- The report text of `apexcov`: `body := "TN:\n"` followed by the loop. -/
def translate (dir : String) (stat : String → StatResult) (records : List Record) :
    Run String :=
  loopFrom dir stat "TN:\n" records

/-! ## The outside world -/

/-- The bytes of an HTTP body, as text. -/
abbrev Bytes := String

/-- An HTTP response as the program observes it: the status code and what
`ioutil.ReadAll(response.Body)` returns (the data and a possibly nil error). -/
structure Response where
  StatusCode : Int
  Body : Bytes
  ReadErr : Option String
  deriving DecidableEq, Repr

/-- What building a request and sending it gives. `http.NewRequest` returns either
a request or a nil request with an error; the program drops that error. With a
request, `client.Do(req)` returns a response with a nil error, or an error.
* `noRequest`: `http.NewRequest` returned a nil request (the URL does not parse);
  `client.Do` is not reached;
* `failed err`: the request was built and `client.Do` returned the error `err`;
* `response r`: the request was built and `client.Do` returned the response `r`. -/
inductive DoResult where
  | response (r : Response)
  | failed (err : String)
  | noRequest
  deriving DecidableEq, Repr

/-- Go `SoapLoginResponse`; the fields are read from `Body>loginResponse>result>sessionId`,
`Body>loginResponse>result>userId` and `Body>loginResponse>result>serverUrl`. -/
structure SoapLoginResponse where
  SessionID : String
  ID : String
  InstanceURL : String
  deriving DecidableEq, Repr

/-- Go `SoapErrorResponse`; the fields are read from `Body>Fault>faultcode` and
`Body>Fault>faultstring`. -/
structure SoapErrorResponse where
  FaultCode : String
  FaultString : String
  deriving DecidableEq, Repr

/-- The part of Go `url.URL` the program reads. -/
structure URL where
  Host : String
  deriving DecidableEq, Repr

/-- The value built by `cli.NewExitError(message, exitCode)`. -/
structure ExitError where
  message : String
  exitCode : Int
  deriving DecidableEq, Repr

/-- An effect of a run on the outside world. -/
inductive Event where
  | loginPost (url rbody : String)
  | loginReadBody
  | coverageGet (url authorization : String)
  | coverageReadBody
  | mkdir (path : String)
  | writeFile (path data : String)
  deriving DecidableEq, Repr

/-- The step of the run an effect belongs to: 1 for the login exchange, 2 for the
coverage query, 3 for storing the report. -/
def Event.step : Event → Nat
  | Event.loginPost _ _ => 1
  | Event.loginReadBody => 1
  | Event.coverageGet _ _ => 2
  | Event.coverageReadBody => 2
  | Event.mkdir _ => 3
  | Event.writeFile _ _ => 3

/-- Everything the program reads from its environment or calls in the standard library. -/
structure World where
  /-- Value of `c.String("username")`. -/
  username : String
  /-- Value of `c.String("password")`. -/
  password : String
  /-- Value of `c.String("instance")`. -/
  flagInstance : String
  /-- Value of `os.Getenv("APEXCOV_INSTANCE")`. -/
  envInstance : String
  /-- Whether `url.ParseRequestURI` returns a nil error. -/
  parseRequestURI : String → Bool
  /-- Result of `http.NewRequest` and `client.Do` for the login POST, given the URL
  and the request body. -/
  loginDo : String → String → DoResult
  /-- Result of `xml.Unmarshal(body, &soapError)`: the struct as left by the decoder
  (the returned error is dropped by `processError`). -/
  xmlError : Bytes → SoapErrorResponse
  /-- Result of `xml.Unmarshal(body, &loginResponse)`: the struct and the error. -/
  xmlLogin : Bytes → SoapLoginResponse × Option String
  /-- Result of `url.Parse`: `none` when it returns a nil URL and an error. -/
  urlParse : String → Option URL
  /-- Go `url.QueryEscape`. -/
  queryEscape : String → String
  /-- Result of `http.NewRequest` and `client.Do` for the coverage GET, given the URL
  and the `Authorization` header. -/
  coverageDo : String → String → DoResult
  /-- Result of `json.Unmarshal(responseData, &coverage)`: the struct and the error. -/
  jsonCoverage : Bytes → CoverageResponse × Option String
  /-- Value of `os.Getwd()` (its error is ignored by `apexcov`). -/
  getwd : String
  /-- Result of `os.Stat`. -/
  stat : String → StatResult
  /-- Error returned by `ioutil.WriteFile(path, data, 0666)`. -/
  writeFile : String → String → Option String

/-! ## `login.go` -/

/-- The request body `fmt.Sprintf(soap, username, password)`. -/
def soapEnvelope (username password : String) : String :=
  "\n\t\t<soapenv:Envelope xmlns:soapenv=\"http://schemas.xmlsoap.org/soap/envelope/\"\n" ++
  "  \t\t\t\txmlns:urn=\"urn:partner.soap.sforce.com\">\n" ++
  "  \t\t\t<soapenv:Body>\n" ++
  "    \t\t\t<urn:login>\n" ++
  "      \t\t\t\t<urn:username>" ++ username ++ "</urn:username>\n" ++
  "      \t\t\t\t<urn:password>" ++ password ++ "</urn:password>\n" ++
  "    \t\t\t</urn:login>\n" ++
  "  \t\t\t</soapenv:Body>\n" ++
  "\t\t</soapenv:Envelope>\n" ++
  "\t\t"

/-- Go `processError`: decode the body as a SOAP fault and return the fault string
as an error when the fault code is not empty. -/
def processError (w : World) (body : Bytes) : Option String :=
  let soapError := w.xmlError body
  if soapError.FaultCode ≠ "" then some soapError.FaultString else none

/-- Go `login`. The returned triple is `(instanceURL, sessionID, err)`; the second
component of the result lists the effects performed. The error of
`http.NewRequest` is overwritten without a test, so with a nil request
`req.Header.Add` panics before anything is sent; likewise the error of `url.Parse`
is not tested before `u.Host` is read, so with a nil URL that read panics. -/
def login (w : World) (inst username password : String) :
    Run (String × String × Option String) × List Event :=
  let rbody := soapEnvelope username password
  let target := inst ++ "/services/Soap/u/39.0"
  match w.loginDo target rbody with
  | DoResult.noRequest => (Run.crash, [])
  | DoResult.failed err => (Run.done ("", "", some err), [Event.loginPost target rbody])
  | DoResult.response response =>
    if response.StatusCode = 401 then
      (Run.done ("", "", some "Unauthorized"), [Event.loginPost target rbody])
    else
      let ev := [Event.loginPost target rbody, Event.loginReadBody]
      match response.ReadErr with
      | some err => (Run.done ("", "", some err), ev)
      | none =>
        match processError w response.Body with
        | some err => (Run.done ("", "", some err), ev)
        | none =>
          match w.xmlLogin response.Body with
          | (_, some err) => (Run.done ("", "", some err), ev)
          | (loginResponse, none) =>
            match w.urlParse loginResponse.InstanceURL with
            | none => (Run.crash, ev)
            | some u => (Run.done ("https://" ++ u.Host, loginResponse.SessionID, none), ev)

/-! ## `apexcov.go` -/

/-- The `query` string of `getCoverage`. -/
def coverageQuery : String :=
  "SELECT ApexClassOrTriggerId, ApexClassorTrigger.Name, Coverage FROM ApexCodeCoverageAggregate WHERE NOT ApexClassorTrigger.Name = null"

/-- Go `getCoverage`. The returned pair is `(coverage, err)`. As in `login`, the
error of `http.NewRequest` is overwritten without a test, so with a nil request
`req.Header.Add` panics before anything is sent. -/
def getCoverage (w : World) (instanceURL session : String) :
    Run (CoverageResponse × Option String) × List Event :=
  let endpoint := instanceURL ++ "/services/data/v39.0/tooling/query?q="
  let query := coverageQuery
  let target := endpoint ++ w.queryEscape query
  let authorization := "Bearer " ++ session
  match w.coverageDo target authorization with
  | DoResult.noRequest => (Run.crash, [])
  | DoResult.failed err =>
    (Run.done (⟨[]⟩, some err), [Event.coverageGet target authorization])
  | DoResult.response response =>
    let ev := [Event.coverageGet target authorization, Event.coverageReadBody]
    match response.ReadErr with
    | some err => (Run.done (⟨[]⟩, some err), ev)
    | none => (Run.done (w.jsonCoverage response.Body), ev)

/-- Go `persistCoverage`: create `./coverage` when `os.Stat` reports it missing
(the result of `os.Mkdir` is dropped), then write the file and return the error
of the write. -/
def persistCoverage (w : World) (body : String) : Option String × List Event :=
  let ev := if w.stat "./coverage" = StatResult.notExist then [Event.mkdir "./coverage"] else []
  (w.writeFile "./coverage/lcov.info" body, ev ++ [Event.writeFile "./coverage/lcov.info" body])

/-- The value of `instance` in `apexcov` after the `APEXCOV_INSTANCE` override. -/
def instanceOf (w : World) : String :=
  if w.envInstance ≠ "" then w.envInstance else w.flagInstance

/-- Go `apexcov`: the error it returns (`none` is `nil`, exit status zero) and the
effects performed. -/
def apexcov (w : World) : Run (Option ExitError) × List Event :=
  let username := w.username
  let password := w.password
  let inst := instanceOf w
  if username = "" then
    (Run.done (some ⟨"You must provide a username", 1⟩), [])
  else if password = "" then
    (Run.done (some ⟨"You must provide a password", 1⟩), [])
  else if w.parseRequestURI inst = false then
    (Run.done (some ⟨"You must provide a valid instance URL", 1⟩), [])
  else
    match login w inst username password with
    | (Run.crash, ev1) => (Run.crash, ev1)
    | (Run.done (_, _, some err), ev1) => (Run.done (some ⟨err, 1⟩), ev1)
    | (Run.done (instanceURL, sessionID, none), ev1) =>
      match getCoverage w instanceURL sessionID with
      | (Run.crash, ev2) => (Run.crash, ev1 ++ ev2)
      | (Run.done (_, some err), ev2) => (Run.done (some ⟨err, 1⟩), ev1 ++ ev2)
      | (Run.done (data, none), ev2) =>
        match translate w.getwd w.stat data.Records with
        | Run.crash => (Run.crash, ev1 ++ ev2)
        | Run.done body =>
          let persisted := persistCoverage w body
          (Run.done none, ev1 ++ ev2 ++ persisted.2)

/-! ## The report as the specification describes it -/

/-- Concatenation of a list of strings, in order. -/
def concatStrings : List String → String
  | [] => ""
  | t :: rest => t ++ concatStrings rest

/-- The block of a record as the specification describes it: the source-file
marker, one entry per covered line with hit count 1, one entry per uncovered line
with hit count 0, the end-of-record marker. -/
def specBlock (path : String) (cls : Record) : String :=
  "SF:" ++ path ++ "\n"
    ++ concatStrings (cls.CoveredLines.map fun n => "DA:" ++ Itoa n ++ ",1\n")
    ++ concatStrings (cls.UncoveredLines.map fun n => "DA:" ++ Itoa n ++ ",0\n")
    ++ "end_of_record\n"

/-- The contribution of a record as the specification describes it: its block when
the candidate file is present, nothing otherwise. -/
def specContribution (dir : String) (stat : String → StatResult) (cls : Record) : String :=
  if stat (filePath dir cls) = StatResult.info false then specBlock (filePath dir cls) cls else ""

/-- The text one record adds to the report: the loop body run on an empty `body`. -/
def contribution (dir : String) (stat : String → StatResult) (cls : Record) : Run String :=
  loopBody dir stat "" cls

/-- Concatenation, in order, of outcomes; a crash anywhere is a crash of the whole. -/
def concatRuns : List (Run String) → Run String
  | [] => Run.done ""
  | r :: rest => r.bind fun a => (concatRuns rest).bind fun b => Run.done (a ++ b)

/-- The username, the password and the instance URL pass the checks of `apexcov`. -/
def Validated (w : World) : Prop :=
  w.username ≠ "" ∧ w.password ≠ "" ∧ w.parseRequestURI (instanceOf w) = true

/-! ## Concrete inputs -/

/-- A class record whose candidate file is present in `sampleStat`. -/
def sampleFoo : Record := ⟨"01p000000000001AAA", "Foo", [3, 5], [4]⟩

/-- A trigger record whose candidate file is absent in `sampleStat`. -/
def sampleBar : Record := ⟨"01q000000000002AAA", "Bar", [1], [2]⟩

/-- A trigger record whose candidate file is present in `sampleStat`. -/
def sampleBaz : Record := ⟨"01q000000000003AAA", "Baz", [7], []⟩

/-- A filesystem in which `/w/classes/Foo.cls` and `/w/triggers/Baz.trigger` are
regular files, `/w/triggers/Qux.trigger` is a directory, the entries below
`/w/locked` cannot be examined (permission denied), `/v/classes` is a regular file,
so that no path below it exists and the stat of such a path fails with
"not a directory", an error `os.IsNotExist` does not accept, and nothing else
exists. -/
def sampleStat (path : String) : StatResult :=
  if path = "/w/classes/Foo.cls" then StatResult.info false
  else if path = "/w/triggers/Baz.trigger" then StatResult.info false
  else if path = "/w/triggers/Qux.trigger" then StatResult.info true
  else if HasPrefix path "/w/locked/" then StatResult.failed
  else if path = "/v/classes" then StatResult.info false
  else if HasPrefix path "/v/classes/" then StatResult.failed
  else StatResult.notExist

/-- A login response body carrying a session and a server URL. -/
def sampleLoginBody : Bytes :=
  "<Envelope><Body><loginResponse><result><serverUrl>http://na1.salesforce.com/services/Soap/u/39.0/00D</serverUrl><sessionId>00D!AQ</sessionId><userId>005</userId></result></loginResponse></Body></Envelope>"

/-- A login response body carrying a SOAP fault. -/
def sampleFaultBody : Bytes :=
  "<Envelope><Body><Fault><faultcode>INVALID_LOGIN</faultcode><faultstring>INVALID_LOGIN: Invalid username, password, security token; or user locked out.</faultstring></Fault></Body></Envelope>"

/-- A well-formed login response body without a fault whose server URL is `:foo`,
a text `url.Parse` rejects (missing protocol scheme). -/
def sampleBadUrlBody : Bytes :=
  "<Envelope><Body><loginResponse><result><serverUrl>:foo</serverUrl><sessionId>00D!AQ</sessionId><userId>005</userId></result></loginResponse></Body></Envelope>"

/-- A coverage query response body with the three sample records. -/
def sampleCoverageBody : Bytes :=
  "\x7b\"records\":[\x7b\"ApexClassOrTriggerId\":\"01p000000000001AAA\",\"ApexClassOrTrigger\":\x7b\"Name\":\"Foo\"\x7d,\"Coverage\":\x7b\"coveredLines\":[3,5],\"uncoveredLines\":[4]\x7d\x7d,\x7b\"ApexClassOrTriggerId\":\"01q000000000002AAA\",\"ApexClassOrTrigger\":\x7b\"Name\":\"Bar\"\x7d,\"Coverage\":\x7b\"coveredLines\":[1],\"uncoveredLines\":[2]\x7d\x7d,\x7b\"ApexClassOrTriggerId\":\"01q000000000003AAA\",\"ApexClassOrTrigger\":\x7b\"Name\":\"Baz\"\x7d,\"Coverage\":\x7b\"coveredLines\":[7],\"uncoveredLines\":[]\x7d\x7d]\x7d"

/-- A world in which every step succeeds: the login answers with status 200 and
`sampleLoginBody`, the coverage query answers with the three sample records, the
working directory is `/w` with the filesystem `sampleStat`, and the report file can
be written. The decoders are given on the sample bodies only, and `queryEscape`
leaves its argument as it is. -/
def sampleWorld : World where
  username := "user@example.com"
  password := "secret"
  flagInstance := "https://login.salesforce.com"
  envInstance := ""
  parseRequestURI := fun s => HasPrefix s "https://"
  loginDo := fun _ _ => DoResult.response ⟨200, sampleLoginBody, none⟩
  xmlError := fun body =>
    if body = sampleFaultBody then
      ⟨"INVALID_LOGIN",
       "INVALID_LOGIN: Invalid username, password, security token; or user locked out."⟩
    else ⟨"", ""⟩
  xmlLogin := fun body =>
    if body = sampleLoginBody then
      (⟨"00D!AQ", "005", "http://na1.salesforce.com/services/Soap/u/39.0/00D"⟩, none)
    else if body = sampleBadUrlBody then (⟨"00D!AQ", "005", ":foo"⟩, none)
    else if body = sampleFaultBody then (⟨"", "", ""⟩, none)
    else (⟨"", "", ""⟩, some "EOF")
  urlParse := fun s =>
    if s = "http://na1.salesforce.com/services/Soap/u/39.0/00D" then
      some ⟨"na1.salesforce.com"⟩
    else none
  queryEscape := fun s => s
  coverageDo := fun _ _ => DoResult.response ⟨200, sampleCoverageBody, none⟩
  jsonCoverage := fun body =>
    if body = sampleCoverageBody then (⟨[sampleFoo, sampleBar, sampleBaz]⟩, none)
    else (⟨[]⟩, some "unexpected end of JSON input")
  getwd := "/w"
  stat := sampleStat
  writeFile := fun _ _ => none

/-- As `sampleWorld`, with the login answered by the given response. -/
def worldWithLogin (r : Response) : World :=
  { sampleWorld with loginDo := fun _ _ => DoResult.response r }

/-- As `sampleWorld`, with the write of `./coverage/lcov.info` failing. -/
def worldWriteFails : World :=
  { sampleWorld with
    writeFile := fun _ _ => some "open ./coverage/lcov.info: permission denied" }

/-- As `sampleWorld`, with the coverage query failing in the transport. -/
def worldFetchFails : World :=
  { sampleWorld with coverageDo := fun _ _ => DoResult.failed "dial tcp: i/o timeout" }

/-- As `sampleWorld`, without a username. -/
def worldNoUsername : World :=
  { sampleWorld with username := "" }

/-- As `sampleWorld`, with the instance `//[`: `url.ParseRequestURI` accepts it, and
`http.NewRequest` cannot build a request for `//[/services/Soap/u/39.0`. -/
def worldNoLoginRequest : World :=
  { sampleWorld with
    flagInstance := "//["
    parseRequestURI := fun s => s = "//[" || HasPrefix s "https://"
    loginDo := fun target _ =>
      if target = "//[/services/Soap/u/39.0" then DoResult.noRequest
      else DoResult.response ⟨200, sampleLoginBody, none⟩ }

/-- A login response body whose server URL has an IPv6 zone: `url.Parse` accepts it
and gives the host `[fe80::1%en0]`. -/
def sampleZoneBody : Bytes :=
  "<Envelope><Body><loginResponse><result><serverUrl>https://[fe80::1%25en0]/services/Soap/u/39.0</serverUrl><sessionId>00D!AQ</sessionId><userId>005</userId></result></loginResponse></Body></Envelope>"

/-- As `sampleWorld`, with the login answered by `sampleZoneBody`: the instance URL
returned by `login` is `https://[fe80::1%en0]`, and `http.NewRequest` cannot build
the coverage request for it. -/
def worldNoCoverageRequest : World :=
  { sampleWorld with
    loginDo := fun _ _ => DoResult.response ⟨200, sampleZoneBody, none⟩
    xmlLogin := fun body =>
      if body = sampleZoneBody then
        (⟨"00D!AQ", "005", "https://[fe80::1%25en0]/services/Soap/u/39.0"⟩, none)
      else (⟨"", "", ""⟩, some "EOF")
    urlParse := fun s =>
      if s = "https://[fe80::1%25en0]/services/Soap/u/39.0" then some ⟨"[fe80::1%en0]"⟩
      else none
    coverageDo := fun target _ =>
      if HasPrefix target "https://[fe80::1%en0]/" then DoResult.noRequest
      else DoResult.response ⟨200, sampleCoverageBody, none⟩ }

end Apexcov


namespace Apexcov

/-! ## Lemmas on strings and on the loop -/

theorem appendLines_eq (tail : String) (lines : List Int) (body : String) :
    appendLines tail body lines
      = body ++ concatStrings (lines.map fun n => "DA:" ++ Itoa n ++ tail) := by
  induction lines generalizing body with
  | nil => simp [appendLines, concatStrings]
  | cons n rest ih =>
    have h := ih (body ++ ("DA:" ++ Itoa n ++ tail))
    simp only [appendLines, List.foldl_cons, List.map_cons, concatStrings] at h ⊢
    rw [h, String.append_assoc]

theorem hasPrefix_iff (s p : String) : HasPrefix s p = true ↔ ∃ rest : String, s = p ++ rest := by
  constructor
  · intro h
    simp only [HasPrefix, Bool.and_eq_true, decide_eq_true_eq, beq_iff_eq] at h
    refine ⟨⟨s.data.drop p.data.length⟩, ?_⟩
    apply String.ext
    simp only [String.data_append]
    have e := List.take_append_drop p.data.length s.data
    rw [h.2] at e
    exact e.symm
  · rintro ⟨rest, rfl⟩
    simp [HasPrefix]

theorem loopBody_present (dir : String) (stat : String → StatResult) (body : String)
    (cls : Record) (h : stat (filePath dir cls) = StatResult.info false) :
    loopBody dir stat body cls = Run.done (body ++ specBlock (filePath dir cls) cls) := by
  simp only [loopBody, fileExists, h, Run.bind, Bool.not_false, if_true, ite_self,
    appendLines_eq, specBlock, String.append_assoc]

theorem loopBody_absent (dir : String) (stat : String → StatResult) (body : String)
    (cls : Record)
    (h : stat (filePath dir cls) = StatResult.notExist
      ∨ stat (filePath dir cls) = StatResult.info true) :
    loopBody dir stat body cls = Run.done body := by
  rcases h with h | h <;> simp [loopBody, fileExists, h, Run.bind]

theorem loopBody_failed (dir : String) (stat : String → StatResult) (body : String)
    (cls : Record) (h : stat (filePath dir cls) = StatResult.failed) :
    loopBody dir stat body cls = Run.crash := by
  simp [loopBody, fileExists, h, Run.bind]

theorem loopBody_eq (dir : String) (stat : String → StatResult) (body : String)
    (cls : Record) :
    loopBody dir stat body cls
      = (contribution dir stat cls).bind fun t => Run.done (body ++ t) := by
  unfold contribution
  cases h : stat (filePath dir cls) with
  | info isDir =>
    cases isDir with
    | false => simp [loopBody_present _ _ _ _ h, Run.bind]
    | true => simp [loopBody_absent _ _ _ _ (Or.inr h), Run.bind]
  | notExist => simp [loopBody_absent _ _ _ _ (Or.inl h), Run.bind]
  | failed => simp [loopBody_failed _ _ _ _ h, Run.bind]

theorem loopFrom_eq (dir : String) (stat : String → StatResult) (records : List Record)
    (body : String) :
    loopFrom dir stat body records
      = (concatRuns (records.map (contribution dir stat))).bind
          fun t => Run.done (body ++ t) := by
  induction records generalizing body with
  | nil => simp [loopFrom, concatRuns, Run.bind]
  | cons cls rest ih =>
    simp only [loopFrom, List.map_cons, concatRuns]
    rw [loopBody_eq]
    cases hc : contribution dir stat cls with
    | crash => simp [Run.bind]
    | done t =>
      simp only [Run.bind]
      rw [ih]
      cases concatRuns (rest.map (contribution dir stat)) with
      | crash => simp [Run.bind]
      | done u => simp [Run.bind, String.append_assoc]

theorem loopFrom_append (dir : String) (stat : String → StatResult) (pre post : List Record)
    (body : String) :
    loopFrom dir stat body (pre ++ post)
      = (loopFrom dir stat body pre).bind fun b => loopFrom dir stat b post := by
  induction pre generalizing body with
  | nil => simp [loopFrom, Run.bind]
  | cons cls rest ih =>
    simp only [List.cons_append, loopFrom]
    cases loopBody dir stat body cls with
    | crash => simp [Run.bind]
    | done b => simp only [Run.bind]; exact ih b

theorem contribution_of_not_failed (dir : String) (stat : String → StatResult) (cls : Record)
    (h : stat (filePath dir cls) ≠ StatResult.failed) :
    contribution dir stat cls = Run.done (specContribution dir stat cls) := by
  unfold contribution specContribution
  cases hs : stat (filePath dir cls) with
  | info isDir =>
    cases isDir with
    | false => simp [loopBody_present _ _ _ _ hs]
    | true => simp [loopBody_absent _ _ _ _ (Or.inr hs)]
  | notExist => simp [loopBody_absent _ _ _ _ (Or.inl hs)]
  | failed => exact absurd hs h

theorem concatRuns_of_not_failed (dir : String) (stat : String → StatResult)
    (records : List Record)
    (h : ∀ cls ∈ records, stat (filePath dir cls) ≠ StatResult.failed) :
    concatRuns (records.map (contribution dir stat))
      = Run.done (concatStrings (records.map (specContribution dir stat))) := by
  induction records with
  | nil => simp [concatRuns, concatStrings]
  | cons cls rest ih =>
    have h1 := contribution_of_not_failed dir stat cls (h cls (List.mem_cons_self _ _))
    have h2 := ih fun c hc => h c (List.mem_cons_of_mem _ hc)
    simp [concatRuns, concatStrings, h1, h2, Run.bind]

/-! ## Report translation -/

/-- C1: the report is the header `TN:\n` followed by the contributions of the
records, concatenated in the order of the record list, each contribution being a
function of the record, the working directory and the filesystem only; for the
empty list the report is exactly the header. A contribution that crashes (see
`fileExists`) crashes the run; when no candidate path has a failed stat the report
is the header followed by the blocks the specification describes. -/
theorem report_is_header_then_contributions (dir : String) (stat : String → StatResult)
    (records : List Record) :
    translate dir stat [] = Run.done "TN:\n"
    ∧ translate dir stat records
        = (concatRuns (records.map (contribution dir stat))).bind
            (fun t => Run.done ("TN:\n" ++ t))
    ∧ ((∀ cls ∈ records, stat (filePath dir cls) ≠ StatResult.failed) →
        translate dir stat records
          = Run.done ("TN:\n" ++ concatStrings (records.map (specContribution dir stat)))) := by
  refine ⟨rfl, loopFrom_eq dir stat records "TN:\n", fun h => ?_⟩
  unfold translate
  rw [loopFrom_eq, concatRuns_of_not_failed dir stat records h]
  rfl

theorem report_is_header_then_contributions_witness :
    (∀ cls ∈ [sampleFoo, sampleBar, sampleBaz],
        sampleStat (filePath "/w" cls) ≠ StatResult.failed)
    ∧ translate "/w" sampleStat [sampleFoo, sampleBar, sampleBaz]
        = Run.done ("TN:\n" ++ concatStrings
            ([sampleFoo, sampleBar, sampleBaz].map (specContribution "/w" sampleStat)))
    ∧ "TN:\n" ++ concatStrings
          ([sampleFoo, sampleBar, sampleBaz].map (specContribution "/w" sampleStat))
        = "TN:\nSF:/w/classes/Foo.cls\nDA:3,1\nDA:5,1\nDA:4,0\nend_of_record\nSF:/w/triggers/Baz.trigger\nDA:7,1\nend_of_record\n" :=
  ⟨by decide,
   (report_is_header_then_contributions "/w" sampleStat
      [sampleFoo, sampleBar, sampleBaz]).2.2 (by decide),
   by decide⟩

/-- C2: when the candidate file of a record exists and is not a directory, the
iteration for that record appends exactly `SF:<candidate path>\n`, one `DA:<n>,1\n`
per covered line in the given order, one `DA:<n>,0\n` per uncovered line in the given
order, and `end_of_record\n`; the same text is what the record adds at the end of
a report. -/
theorem present_record_block (dir : String) (stat : String → StatResult) (cls : Record)
    (h : stat (filePath dir cls) = StatResult.info false) :
    (∀ body : String, loopBody dir stat body cls
        = Run.done (body ++ ("SF:" ++ filePath dir cls ++ "\n"
            ++ concatStrings (cls.CoveredLines.map fun n => "DA:" ++ Itoa n ++ ",1\n")
            ++ concatStrings (cls.UncoveredLines.map fun n => "DA:" ++ Itoa n ++ ",0\n")
            ++ "end_of_record\n")))
    ∧ (∀ before : List Record, translate dir stat (before ++ [cls])
        = (translate dir stat before).bind fun b => Run.done (b ++ ("SF:" ++ filePath dir cls ++ "\n"
            ++ concatStrings (cls.CoveredLines.map fun n => "DA:" ++ Itoa n ++ ",1\n")
            ++ concatStrings (cls.UncoveredLines.map fun n => "DA:" ++ Itoa n ++ ",0\n")
            ++ "end_of_record\n"))) := by
  have hb := fun body => loopBody_present dir stat body cls h
  refine ⟨fun body => hb body, fun before => ?_⟩
  unfold translate
  rw [loopFrom_append]
  congr 1
  funext b
  simp only [loopFrom, Run.bind, hb b]
  rfl

theorem present_record_block_witness :
    sampleStat (filePath "/w" sampleFoo) = StatResult.info false
    ∧ (∀ body : String, loopBody "/w" sampleStat body sampleFoo
        = Run.done (body ++ "SF:/w/classes/Foo.cls\nDA:3,1\nDA:5,1\nDA:4,0\nend_of_record\n")) :=
  ⟨by decide, (present_record_block "/w" sampleStat sampleFoo (by decide)).1⟩

/-- When the stat of the candidate path reports that the path does not exist
(`os.IsNotExist`) or that it is a directory, the record leaves the report
unchanged: its iteration returns `body` as it was, and the report for a list
containing the record equals the report for the list with that record removed. -/
theorem absent_record_contributes_nothing (dir : String) (stat : String → StatResult)
    (cls : Record)
    (h : stat (filePath dir cls) = StatResult.notExist
      ∨ stat (filePath dir cls) = StatResult.info true) :
    (∀ body : String, loopBody dir stat body cls = Run.done body)
    ∧ contribution dir stat cls = Run.done ""
    ∧ (∀ before after : List Record,
        translate dir stat (before ++ cls :: after) = translate dir stat (before ++ after)) := by
  have hb := fun body => loopBody_absent dir stat body cls h
  refine ⟨hb, hb "", fun before after => ?_⟩
  unfold translate
  rw [loopFrom_append, loopFrom_append]
  congr 1
  funext b
  simp only [loopFrom, hb b, Run.bind]

/-- C3: in `sampleStat` the entry `/v/classes` is a regular file, so the candidate
path `/v/classes/Foo.cls` of `sampleFoo` does not exist, and its stat fails with an
error other than not-exist. The record is not skipped: its iteration crashes, and
the report for the list containing it is a crash while the report for the list
without it is the header. -/
theorem absent_record_crashes_when_stat_error_is_not_enoent :
    sampleStat "/v/classes" = StatResult.info false
    ∧ filePath "/v" sampleFoo = "/v/classes/Foo.cls"
    ∧ sampleStat "/v/classes/Foo.cls" = StatResult.failed
    ∧ loopBody "/v" sampleStat "TN:\n" sampleFoo = Run.crash
    ∧ translate "/v" sampleStat ([] ++ sampleFoo :: []) = Run.crash
    ∧ translate "/v" sampleStat ([] ++ []) = Run.done "TN:\n" := by
  decide

/-- C4: the candidate path is `dir/classes/<name>.cls` when the entity ID starts
with `01p` and `dir/triggers/<name>.trigger` for every other ID, among them every ID
shorter than three characters; the `SF:` line of the record carries that path. -/
theorem candidate_path (dir : String) (cls : Record) :
    ((∃ rest : String, cls.ID = "01p" ++ rest) →
        filePath dir cls = dir ++ "/classes/" ++ cls.Name ++ ".cls")
    ∧ ((¬ ∃ rest : String, cls.ID = "01p" ++ rest) →
        filePath dir cls = dir ++ "/triggers/" ++ cls.Name ++ ".trigger")
    ∧ (cls.ID.length < 3 →
        filePath dir cls = dir ++ "/triggers/" ++ cls.Name ++ ".trigger")
    ∧ (∀ (stat : String → StatResult) (body : String),
        stat (filePath dir cls) = StatResult.info false →
        ∃ rest : String, loopBody dir stat body cls
          = Run.done (body ++ ("SF:" ++ filePath dir cls ++ "\n") ++ rest)) := by
  refine ⟨fun h => ?_, fun h => ?_, fun h => ?_, fun stat body h => ?_⟩
  · have hp := (hasPrefix_iff cls.ID "01p").2 h
    simp [filePath, hp]
  · have hp : HasPrefix cls.ID "01p" = false := by
      cases hb : HasPrefix cls.ID "01p" with
      | false => rfl
      | true => exact absurd ((hasPrefix_iff cls.ID "01p").1 hb) h
    simp [filePath, hp]
  · have hp : HasPrefix cls.ID "01p" = false := by
      cases hb : HasPrefix cls.ID "01p" with
      | false => rfl
      | true =>
        obtain ⟨rest, hr⟩ := (hasPrefix_iff cls.ID "01p").1 hb
        rw [hr, String.length_append] at h
        have h3 : ("01p" : String).length = 3 := by decide
        omega
    simp [filePath, hp]
  · refine ⟨concatStrings (cls.CoveredLines.map fun n => "DA:" ++ Itoa n ++ ",1\n")
        ++ concatStrings (cls.UncoveredLines.map fun n => "DA:" ++ Itoa n ++ ",0\n")
        ++ "end_of_record\n", ?_⟩
    rw [loopBody_present dir stat body cls h]
    simp only [specBlock, String.append_assoc]

theorem candidate_path_witness :
    (∃ rest : String, sampleFoo.ID = "01p" ++ rest)
    ∧ filePath "/w" sampleFoo = "/w" ++ "/classes/" ++ "Foo" ++ ".cls"
    ∧ (¬ ∃ rest : String, sampleBar.ID = "01p" ++ rest)
    ∧ filePath "/w" sampleBar = "/w" ++ "/triggers/" ++ "Bar" ++ ".trigger"
    ∧ filePath "/w" ⟨"", "Baz", [], []⟩ = "/w" ++ "/triggers/" ++ "Baz" ++ ".trigger" :=
  ⟨⟨"000000000001AAA", by decide⟩,
   (candidate_path "/w" sampleFoo).1 ⟨"000000000001AAA", by decide⟩,
   fun h => by
     have hp := (hasPrefix_iff sampleBar.ID "01p").2 h
     revert hp
     decide,
   (candidate_path "/w" sampleBar).2.1 (fun h => by
     have hp := (hasPrefix_iff sampleBar.ID "01p").2 h
     revert hp
     decide),
   (candidate_path "/w" ⟨"", "Baz", [], []⟩).2.2.1 (by decide)⟩

/-! ## `fileExists` -/

/-- The three outcomes of `fileExists`, one per outcome of `os.Stat`. -/
theorem fileExists_cases (stat : String → StatResult) (filename : String) :
    (∀ isDir, stat filename = StatResult.info isDir →
        fileExists stat filename = Run.done (!isDir))
    ∧ (stat filename = StatResult.notExist → fileExists stat filename = Run.done false)
    ∧ (stat filename = StatResult.failed → fileExists stat filename = Run.crash) := by
  refine ⟨fun isDir h => ?_, fun h => ?_, fun h => ?_⟩ <;> simp [fileExists, h]

/-- C10: on a path whose stat fails for a reason other than absence (here an entry
below the unreadable directory `/w/locked`), `fileExists` does not return a boolean:
it crashes, and so does the translation of a record whose candidate path is there. -/
theorem fileExists_crashes_when_stat_fails :
    sampleStat "/w/locked/classes/Foo.cls" = StatResult.failed
    ∧ fileExists sampleStat "/w/locked/classes/Foo.cls" = Run.crash
    ∧ translate "/w/locked" sampleStat [sampleFoo] = Run.crash := by
  decide

/-! ## Login -/

/-- The effects of `login`: none when no request could be built; otherwise the
request, and the read of the body unless the transport failed or the status was
401. -/
theorem login_trace (w : World) (inst username password : String) :
    (login w inst username password).2 = []
    ∨ (login w inst username password).2
        = [Event.loginPost (inst ++ "/services/Soap/u/39.0") (soapEnvelope username password)]
    ∨ (login w inst username password).2
        = [Event.loginPost (inst ++ "/services/Soap/u/39.0") (soapEnvelope username password),
           Event.loginReadBody] := by
  unfold login
  simp only []
  repeat' split
  all_goals simp

/-- Every effect of `login` belongs to step 1. -/
theorem login_events (w : World) (inst username password : String) :
    ∀ e ∈ (login w inst username password).2, e.step = 1 := by
  intro e he
  rcases login_trace w inst username password with h | h | h <;> rw [h] at he <;>
    simp only [List.mem_cons, List.mem_singleton, List.not_mem_nil, or_false] at he
  · subst he; rfl
  · rcases he with he | he <;> subst he <;> rfl

/-- The effects of `getCoverage`: none when no request could be built; otherwise
the request, and the read of the body unless the transport failed. -/
theorem getCoverage_trace (w : World) (instanceURL session : String) :
    ∃ target authorization : String,
      (getCoverage w instanceURL session).2 = []
      ∨ (getCoverage w instanceURL session).2 = [Event.coverageGet target authorization]
      ∨ (getCoverage w instanceURL session).2
          = [Event.coverageGet target authorization, Event.coverageReadBody] := by
  refine ⟨instanceURL ++ "/services/data/v39.0/tooling/query?q=" ++ w.queryEscape coverageQuery,
    "Bearer " ++ session, ?_⟩
  unfold getCoverage
  simp only []
  repeat' split
  · exact Or.inl rfl
  · exact Or.inr (Or.inl rfl)
  · exact Or.inr (Or.inr rfl)
  · exact Or.inr (Or.inr rfl)

/-- Every effect of `getCoverage` belongs to step 2. -/
theorem getCoverage_events (w : World) (instanceURL session : String) :
    ∀ e ∈ (getCoverage w instanceURL session).2, e.step = 2 := by
  intro e he
  obtain ⟨target, authorization, h | h | h⟩ := getCoverage_trace w instanceURL session <;>
    rw [h] at he <;>
    simp only [List.mem_cons, List.mem_singleton, List.not_mem_nil, or_false] at he
  · subst he; rfl
  · rcases he with he | he <;> subst he <;> rfl

/-- Without a request `login` crashes before anything is sent. -/
theorem login_without_request (w : World) (inst username password : String)
    (h : w.loginDo (inst ++ "/services/Soap/u/39.0") (soapEnvelope username password)
      = DoResult.noRequest) :
    login w inst username password = (Run.crash, []) := by
  simp [login, h]

/-- Without a request `getCoverage` crashes before anything is sent. -/
theorem getCoverage_without_request (w : World) (instanceURL session : String)
    (h : w.coverageDo
        (instanceURL ++ "/services/data/v39.0/tooling/query?q=" ++ w.queryEscape coverageQuery)
        ("Bearer " ++ session) = DoResult.noRequest) :
    getCoverage w instanceURL session = (Run.crash, []) := by
  simp [getCoverage, h]

/-- The run with the instance `//[` crashes before anything is sent; the run whose
login gives the instance URL `https://[fe80::1%en0]` crashes after the login
exchange, before the coverage request is sent and before anything is written. -/
theorem apexcov_crashes_without_request :
    apexcov worldNoLoginRequest = (Run.crash, [])
    ∧ (apexcov worldNoCoverageRequest).1 = Run.crash
    ∧ (∀ e ∈ (apexcov worldNoCoverageRequest).2, e.step = 1) := by
  decide

/-- The effects of `persistCoverage` end with the write of the report, preceded at
most by the creation of the directory. -/
theorem persistCoverage_trace (w : World) (body : String) :
    (persistCoverage w body).2 = [Event.writeFile "./coverage/lcov.info" body]
    ∨ (persistCoverage w body).2
        = [Event.mkdir "./coverage", Event.writeFile "./coverage/lcov.info" body] := by
  unfold persistCoverage
  simp only []
  split
  · exact Or.inr rfl
  · exact Or.inl rfl

/-- Every effect of `persistCoverage` belongs to step 3. -/
theorem persistCoverage_events (w : World) (body : String) :
    ∀ e ∈ (persistCoverage w body).2, e.step = 3 := by
  intro e he
  rcases persistCoverage_trace w body with h | h <;> rw [h] at he <;>
    simp only [List.mem_cons, List.mem_singleton, List.not_mem_nil, or_false] at he
  · subst he; rfl
  · rcases he with he | he <;> subst he <;> rfl

/-- With a login response of status other than 401, a body read in full, no SOAP
fault, a decodable payload and a server URL that `url.Parse` accepts, `login`
returns `https://` followed by the host of the server URL, and the session ID. -/
theorem login_success (w : World) (inst username password : String) (r : Response)
    (lr : SoapLoginResponse) (u : URL)
    (hdo : w.loginDo (inst ++ "/services/Soap/u/39.0") (soapEnvelope username password)
      = DoResult.response r)
    (hstatus : r.StatusCode ≠ 401) (hread : r.ReadErr = none)
    (hfault : (w.xmlError r.Body).FaultCode = "")
    (hxml : w.xmlLogin r.Body = (lr, none))
    (hurl : w.urlParse lr.InstanceURL = some u) :
    (login w inst username password).1
      = Run.done ("https://" ++ u.Host, lr.SessionID, none) := by
  simp [login, hdo, hstatus, hread, processError, hfault, hxml, hurl]

/-- C5, as stated, fails at status 401: the response carries `sampleFaultBody`,
whose fault code is not empty, and `login` returns the error `Unauthorized`, not
the fault string of the body. -/
theorem fault_with_status_401_is_unauthorized :
    ((worldWithLogin ⟨401, sampleFaultBody, none⟩).xmlError sampleFaultBody).FaultCode ≠ ""
    ∧ (login (worldWithLogin ⟨401, sampleFaultBody, none⟩)
          "https://login.salesforce.com" "user@example.com" "secret").1
        = Run.done ("", "", some "Unauthorized")
    ∧ some "Unauthorized"
        ≠ some ((worldWithLogin ⟨401, sampleFaultBody, none⟩).xmlError
            sampleFaultBody).FaultString := by
  decide

/-- C5, amended: when the status of the login response is not 401, its body is read
in full and the fault code decoded from the body is not empty, `login` fails with
the fault string of the body as its error, for every status code other than 401 and
whatever the decoder of the success payload would return. -/
theorem fault_reported_when_status_not_401 (w : World) (inst username password : String)
    (r : Response)
    (hdo : w.loginDo (inst ++ "/services/Soap/u/39.0") (soapEnvelope username password)
      = DoResult.response r)
    (hstatus : r.StatusCode ≠ 401) (hread : r.ReadErr = none)
    (hfault : (w.xmlError r.Body).FaultCode ≠ "") :
    login w inst username password
      = (Run.done ("", "", some (w.xmlError r.Body).FaultString),
         [Event.loginPost (inst ++ "/services/Soap/u/39.0") (soapEnvelope username password),
          Event.loginReadBody]) := by
  simp [login, hdo, hstatus, hread, processError, hfault]

theorem fault_reported_when_status_not_401_witness :
    login (worldWithLogin ⟨200, sampleFaultBody, none⟩)
        "https://login.salesforce.com" "user@example.com" "secret"
      = (Run.done ("", "", some ((worldWithLogin ⟨200, sampleFaultBody, none⟩).xmlError
            sampleFaultBody).FaultString),
         [Event.loginPost ("https://login.salesforce.com" ++ "/services/Soap/u/39.0")
            (soapEnvelope "user@example.com" "secret"),
          Event.loginReadBody]) :=
  fault_reported_when_status_not_401 (worldWithLogin ⟨200, sampleFaultBody, none⟩)
    "https://login.salesforce.com" "user@example.com" "secret" ⟨200, sampleFaultBody, none⟩
    rfl (by decide) rfl (by decide)

/-- C6: when the login response has status 401, `login` returns the error
`Unauthorized` for every instance, username and password, whatever the body is and
without reading it; `apexcov` then returns an exit error with code 1 and performs
no effect beyond the login request (no coverage query, no write). -/
theorem unauthorized_on_status_401 (w : World) (r : Response) (h401 : r.StatusCode = 401) :
    (∀ inst username password : String,
        w.loginDo (inst ++ "/services/Soap/u/39.0") (soapEnvelope username password)
          = DoResult.response r →
        login w inst username password
          = (Run.done ("", "", some "Unauthorized"),
             [Event.loginPost (inst ++ "/services/Soap/u/39.0")
                (soapEnvelope username password)]))
    ∧ (w.loginDo (instanceOf w ++ "/services/Soap/u/39.0") (soapEnvelope w.username w.password)
          = DoResult.response r →
        (∃ msg : String, (apexcov w).1 = Run.done (some ⟨msg, 1⟩))
        ∧ (∀ e ∈ (apexcov w).2, e.step = 1)
        ∧ (Validated w →
            apexcov w
              = (Run.done (some ⟨"Unauthorized", 1⟩),
                 [Event.loginPost (instanceOf w ++ "/services/Soap/u/39.0")
                    (soapEnvelope w.username w.password)]))) := by
  have hlogin : ∀ inst username password : String,
      w.loginDo (inst ++ "/services/Soap/u/39.0") (soapEnvelope username password)
        = DoResult.response r →
      login w inst username password
        = (Run.done ("", "", some "Unauthorized"),
           [Event.loginPost (inst ++ "/services/Soap/u/39.0")
              (soapEnvelope username password)]) := by
    intro inst username password hdo
    simp [login, hdo, h401]
  refine ⟨hlogin, fun hdo => ?_⟩
  have hl := hlogin (instanceOf w) w.username w.password hdo
  by_cases hu : w.username = ""
  · refine ⟨⟨"You must provide a username", by simp [apexcov, hu]⟩, by simp [apexcov, hu],
      fun hv => absurd hu hv.1⟩
  by_cases hp : w.password = ""
  · refine ⟨⟨"You must provide a password", by simp [apexcov, hu, hp]⟩,
      by simp [apexcov, hu, hp],
      fun hv => absurd hp hv.2.1⟩
  by_cases hi : w.parseRequestURI (instanceOf w) = false
  · refine ⟨⟨"You must provide a valid instance URL", by simp [apexcov, hu, hp, hi]⟩,
      by simp [apexcov, hu, hp, hi], fun hv => ?_⟩
    rw [hv.2.2] at hi
    exact absurd hi (by decide)
  have ha : apexcov w
      = (Run.done (some ⟨"Unauthorized", 1⟩),
         [Event.loginPost (instanceOf w ++ "/services/Soap/u/39.0")
            (soapEnvelope w.username w.password)]) := by
    simp [apexcov, hu, hp, hi, hl]
  refine ⟨⟨_, by rw [ha]⟩, ?_, fun _ => ha⟩
  rw [ha]
  intro e he
  simp only [List.mem_singleton] at he
  subst he
  rfl

theorem unauthorized_on_status_401_witness :
    apexcov (worldWithLogin ⟨401, sampleFaultBody, none⟩)
      = (Run.done (some ⟨"Unauthorized", 1⟩),
         [Event.loginPost
            (instanceOf (worldWithLogin ⟨401, sampleFaultBody, none⟩) ++ "/services/Soap/u/39.0")
            (soapEnvelope (worldWithLogin ⟨401, sampleFaultBody, none⟩).username
              (worldWithLogin ⟨401, sampleFaultBody, none⟩).password)]) :=
  ((unauthorized_on_status_401 (worldWithLogin ⟨401, sampleFaultBody, none⟩)
      ⟨401, sampleFaultBody, none⟩ rfl).2 rfl).2.2 ⟨by decide, by decide, by decide⟩

/-- C9: with status 200 and the well-formed, fault-free body `sampleBadUrlBody`,
whose server URL `:foo` is rejected by `url.Parse`, `login` neither returns a result
nor an error: it crashes, and so does `apexcov`. -/
theorem login_crashes_on_unparsable_serverUrl :
    ((worldWithLogin ⟨200, sampleBadUrlBody, none⟩).xmlError sampleBadUrlBody).FaultCode = ""
    ∧ (worldWithLogin ⟨200, sampleBadUrlBody, none⟩).xmlLogin sampleBadUrlBody
        = (⟨"00D!AQ", "005", ":foo"⟩, none)
    ∧ (worldWithLogin ⟨200, sampleBadUrlBody, none⟩).urlParse ":foo" = none
    ∧ (login (worldWithLogin ⟨200, sampleBadUrlBody, none⟩)
          "https://login.salesforce.com" "user@example.com" "secret").1 = Run.crash
    ∧ (apexcov (worldWithLogin ⟨200, sampleBadUrlBody, none⟩)).1 = Run.crash := by
  decide

/-! ## The run as a whole -/

/-- The seven ways a run of `apexcov` can go, with its result and effects in each. -/
theorem apexcov_cases (w : World) :
    ((w.username = "" ∨ w.password = "" ∨ w.parseRequestURI (instanceOf w) = false)
      ∧ ∃ msg : String, apexcov w = (Run.done (some ⟨msg, 1⟩), []))
    ∨ (Validated w ∧ (login w (instanceOf w) w.username w.password).1 = Run.crash
      ∧ apexcov w = (Run.crash, (login w (instanceOf w) w.username w.password).2))
    ∨ (Validated w ∧ ∃ (iu sid msg : String),
        (login w (instanceOf w) w.username w.password).1 = Run.done (iu, sid, some msg)
        ∧ apexcov w
          = (Run.done (some ⟨msg, 1⟩), (login w (instanceOf w) w.username w.password).2))
    ∨ (Validated w ∧ ∃ (iu sid : String),
        (login w (instanceOf w) w.username w.password).1 = Run.done (iu, sid, none)
        ∧ (getCoverage w iu sid).1 = Run.crash
        ∧ apexcov w
          = (Run.crash,
             (login w (instanceOf w) w.username w.password).2 ++ (getCoverage w iu sid).2))
    ∨ (Validated w ∧ ∃ (iu sid : String) (data : CoverageResponse) (msg : String),
        (login w (instanceOf w) w.username w.password).1 = Run.done (iu, sid, none)
        ∧ (getCoverage w iu sid).1 = Run.done (data, some msg)
        ∧ apexcov w
          = (Run.done (some ⟨msg, 1⟩),
             (login w (instanceOf w) w.username w.password).2 ++ (getCoverage w iu sid).2))
    ∨ (Validated w ∧ ∃ (iu sid : String) (data : CoverageResponse),
        (login w (instanceOf w) w.username w.password).1 = Run.done (iu, sid, none)
        ∧ (getCoverage w iu sid).1 = Run.done (data, none)
        ∧ translate w.getwd w.stat data.Records = Run.crash
        ∧ apexcov w
          = (Run.crash,
             (login w (instanceOf w) w.username w.password).2 ++ (getCoverage w iu sid).2))
    ∨ (Validated w ∧ ∃ (iu sid : String) (data : CoverageResponse) (body : String),
        (login w (instanceOf w) w.username w.password).1 = Run.done (iu, sid, none)
        ∧ (getCoverage w iu sid).1 = Run.done (data, none)
        ∧ translate w.getwd w.stat data.Records = Run.done body
        ∧ apexcov w
          = (Run.done none,
             (login w (instanceOf w) w.username w.password).2 ++ (getCoverage w iu sid).2
               ++ (persistCoverage w body).2)) := by
  by_cases hu : w.username = ""
  · exact Or.inl ⟨Or.inl hu, "You must provide a username", by simp [apexcov, hu]⟩
  by_cases hp : w.password = ""
  · exact Or.inl ⟨Or.inr (Or.inl hp), "You must provide a password", by simp [apexcov, hu, hp]⟩
  by_cases hi : w.parseRequestURI (instanceOf w) = false
  · exact Or.inl ⟨Or.inr (Or.inr hi), "You must provide a valid instance URL",
      by simp [apexcov, hu, hp, hi]⟩
  have hv : Validated w := ⟨hu, hp, by simpa using hi⟩
  right
  rcases hl : login w (instanceOf w) w.username w.password with ⟨res, ev1⟩
  cases res with
  | crash => exact Or.inl ⟨hv, rfl, by simp [apexcov, hu, hp, hi, hl]⟩
  | done t =>
    obtain ⟨iu, sid, err⟩ := t
    right
    cases err with
    | some msg => exact Or.inl ⟨hv, iu, sid, msg, rfl, by simp [apexcov, hu, hp, hi, hl]⟩
    | none =>
      right
      rcases hg : getCoverage w iu sid with ⟨gres, ev2⟩
      cases gres with
      | crash =>
        exact Or.inl ⟨hv, iu, sid, rfl, by simp [hg], by simp [apexcov, hu, hp, hi, hl, hg]⟩
      | done g =>
        obtain ⟨data, gerr⟩ := g
        right
        cases gerr with
        | some msg =>
          exact Or.inl ⟨hv, iu, sid, data, msg, rfl, by simp [hg],
            by simp [apexcov, hu, hp, hi, hl, hg]⟩
        | none =>
          right
          cases ht : translate w.getwd w.stat data.Records with
          | crash =>
            exact Or.inl ⟨hv, iu, sid, data, rfl, by simp [hg], ht,
              by simp [apexcov, hu, hp, hi, hl, hg, ht]⟩
          | done body =>
            exact Or.inr ⟨hv, iu, sid, data, body, rfl, by simp [hg], ht,
              by simp [apexcov, hu, hp, hi, hl, hg, ht]⟩

/-- A list of effects that all belong to one step is ordered by step. -/
theorem pairwise_of_same_step (k : Nat) (l : List Event) (h : ∀ e ∈ l, e.step = k) :
    List.Pairwise (fun a b => a.step ≤ b.step) l := by
  induction l with
  | nil => exact List.Pairwise.nil
  | cons x rest ih =>
    refine List.Pairwise.cons (fun b hb => ?_) (ih fun e he => h e (List.mem_cons_of_mem _ he))
    rw [h x (List.mem_cons_self _ _), h b (List.mem_cons_of_mem _ hb)]

/-- Effects of step `j` followed by effects of a later step `k` are ordered by step. -/
theorem pairwise_append_steps (j k : Nat) (hjk : j ≤ k) (l1 l2 : List Event)
    (h1 : List.Pairwise (fun a b => a.step ≤ b.step) l1) (hj : ∀ e ∈ l1, e.step ≤ j)
    (h2 : ∀ e ∈ l2, e.step = k) :
    List.Pairwise (fun a b => a.step ≤ b.step) (l1 ++ l2) := by
  rw [List.pairwise_append]
  refine ⟨h1, pairwise_of_same_step k l2 h2, fun a ha b hb => ?_⟩
  have := hj a ha
  have := h2 b hb
  omega

/-- A failed validation excludes `Validated`. -/
theorem not_validated (w : World)
    (h : w.username = "" ∨ w.password = "" ∨ w.parseRequestURI (instanceOf w) = false) :
    ¬ Validated w := by
  rintro ⟨hu, hp, hi⟩
  rcases h with h | h | h
  · exact hu h
  · exact hp h
  · rw [hi] at h; exact absurd h (by decide)

/-- C8: `apexcov` stops at the first failure. A missing username, a missing
password or an invalid instance URL gives an exit error with code 1 and no effect at
all; a failed login gives an exit error with the message of login and no effect
beyond the login exchange; a failed coverage query gives an exit error with the
message of the query and no effect beyond the two exchanges; the report file is
written only in a run in which login and query succeeded and the loop over all
records finished, its content is the complete report, the write is the last effect
and the run returns `nil`; a run that crashes (no request could be built, a nil URL
or a nil file info was read) writes nothing; the effects of every run are ordered by
step. -/
theorem apexcov_stops_at_first_failure (w : World) :
    ((w.username = "" ∨ w.password = "" ∨ w.parseRequestURI (instanceOf w) = false) →
        ∃ msg : String, apexcov w = (Run.done (some ⟨msg, 1⟩), []))
    ∧ (Validated w → ∀ iu sid msg : String,
        (login w (instanceOf w) w.username w.password).1 = Run.done (iu, sid, some msg) →
        apexcov w
          = (Run.done (some ⟨msg, 1⟩), (login w (instanceOf w) w.username w.password).2)
        ∧ ∀ e ∈ (apexcov w).2, e.step = 1)
    ∧ (Validated w → ∀ (iu sid : String) (data : CoverageResponse) (msg : String),
        (login w (instanceOf w) w.username w.password).1 = Run.done (iu, sid, none) →
        (getCoverage w iu sid).1 = Run.done (data, some msg) →
        apexcov w
          = (Run.done (some ⟨msg, 1⟩),
             (login w (instanceOf w) w.username w.password).2 ++ (getCoverage w iu sid).2)
        ∧ ∀ e ∈ (apexcov w).2, e.step ≤ 2)
    ∧ (∀ path body : String, Event.writeFile path body ∈ (apexcov w).2 →
        Validated w ∧ path = "./coverage/lcov.info" ∧ (apexcov w).1 = Run.done none
        ∧ ∃ (iu sid : String) (data : CoverageResponse),
            (login w (instanceOf w) w.username w.password).1 = Run.done (iu, sid, none)
            ∧ (getCoverage w iu sid).1 = Run.done (data, none)
            ∧ translate w.getwd w.stat data.Records = Run.done body
            ∧ ∃ earlier : List Event,
                (apexcov w).2 = earlier ++ [Event.writeFile path body]
                ∧ ∀ e ∈ earlier, e ≠ Event.writeFile path body)
    ∧ ((apexcov w).1 = Run.crash → ∀ e ∈ (apexcov w).2, e.step ≤ 2)
    ∧ List.Pairwise (fun a b => a.step ≤ b.step) (apexcov w).2 := by
  have hlog := login_events w (instanceOf w) w.username w.password
  have h12 : ∀ (iu sid : String), ∀ e ∈ (login w (instanceOf w) w.username w.password).2
      ++ (getCoverage w iu sid).2, e.step ≤ 2 := by
    intro iu sid e he
    rcases List.mem_append.1 he with he | he
    · rw [hlog e he]; decide
    · rw [getCoverage_events w _ _ e he]
  have hnowrite : ∀ (iu sid path body : String),
      ∀ e ∈ (login w (instanceOf w) w.username w.password).2 ++ (getCoverage w iu sid).2,
        e ≠ Event.writeFile path body := by
    intro iu sid path body e he heq
    subst heq
    have := h12 iu sid _ he
    have h3 : (Event.writeFile path body).step = 3 := rfl
    omega
  have hnowrite1 : ∀ (path body : String),
      ∀ e ∈ (login w (instanceOf w) w.username w.password).2,
        e ≠ Event.writeFile path body := by
    intro path body e he heq
    subst heq
    have := hlog _ he
    cases this
  refine ⟨fun h => ?_, fun hv iu sid msg h => ?_, fun hv iu sid data msg h hg => ?_,
    fun path body hmem => ?_, fun hcrash => ?_, ?_⟩
  · rcases apexcov_cases w with ⟨_, hm⟩ | ⟨hv, _⟩ | ⟨hv, _⟩ | ⟨hv, _⟩ | ⟨hv, _⟩ | ⟨hv, _⟩
        | ⟨hv, _⟩
    · exact hm
    all_goals exact absurd hv (not_validated w h)
  · rcases apexcov_cases w with ⟨hn, _⟩ | ⟨_, hc, _⟩ | ⟨_, iu2, sid2, msg2, hl, ha⟩
        | ⟨_, iu2, sid2, hl, _⟩ | ⟨_, iu2, sid2, _, _, hl, _⟩ | ⟨_, iu2, sid2, _, hl, _⟩
        | ⟨_, iu2, sid2, _, _, hl, _⟩
    · exact absurd hv (not_validated w hn)
    · rw [hc] at h; cases h
    · rw [hl] at h
      cases h
      refine ⟨ha, ?_⟩
      rw [ha]
      exact hlog
    all_goals (rw [hl] at h; cases h)
  · rcases apexcov_cases w with ⟨hn, _⟩ | ⟨_, hc, _⟩ | ⟨_, iu2, sid2, msg2, hl, _⟩
        | ⟨_, iu2, sid2, hl, hg2, _⟩
        | ⟨_, iu2, sid2, data2, msg2, hl, hg2, ha⟩ | ⟨_, iu2, sid2, data2, hl, hg2, _⟩
        | ⟨_, iu2, sid2, data2, _, hl, hg2, _⟩
    · exact absurd hv (not_validated w hn)
    · rw [hc] at h; cases h
    · rw [hl] at h; cases h
    · rw [hl] at h; cases h; rw [hg2] at hg; cases hg
    · rw [hl] at h
      cases h
      rw [hg2] at hg
      cases hg
      refine ⟨ha, ?_⟩
      rw [ha]
      exact h12 iu sid
    all_goals (rw [hl] at h; cases h; rw [hg2] at hg; cases hg)
  · rcases apexcov_cases w with ⟨_, _, ha⟩ | ⟨_, _, ha⟩ | ⟨_, _, _, _, _, ha⟩
        | ⟨_, iu2, sid2, _, _, ha⟩
        | ⟨_, iu2, sid2, _, _, _, _, ha⟩ | ⟨_, iu2, sid2, _, _, _, _, ha⟩
        | ⟨hv, iu2, sid2, data2, body2, hl, hg2, ht, ha⟩
    · rw [ha] at hmem; cases hmem
    · rw [ha] at hmem; exact absurd rfl (hnowrite1 path body _ hmem)
    · rw [ha] at hmem; exact absurd rfl (hnowrite1 path body _ hmem)
    · rw [ha] at hmem; exact absurd rfl (hnowrite iu2 sid2 path body _ hmem)
    · rw [ha] at hmem; exact absurd rfl (hnowrite iu2 sid2 path body _ hmem)
    · rw [ha] at hmem; exact absurd rfl (hnowrite iu2 sid2 path body _ hmem)
    · rw [ha] at hmem ⊢
      have hearly := hnowrite iu2 sid2 path body
      have hin : Event.writeFile path body ∈ (persistCoverage w body2).2 := by
        rcases List.mem_append.1 hmem with he | he
        · exact absurd rfl (hearly _ he)
        · exact he
      rcases persistCoverage_trace w body2 with hp | hp
      · rw [hp] at hin ⊢
        simp only [List.mem_singleton, Event.writeFile.injEq] at hin
        obtain ⟨rfl, rfl⟩ := hin
        exact ⟨hv, rfl, rfl, iu2, sid2, data2, hl, hg2, ht, _, rfl, hearly⟩
      · rw [hp] at hin ⊢
        simp only [List.mem_cons, List.mem_singleton, Event.writeFile.injEq, reduceCtorEq,
          false_or, List.not_mem_nil, or_false] at hin
        obtain ⟨rfl, rfl⟩ := hin
        refine ⟨hv, rfl, rfl, iu2, sid2, data2, hl, hg2, ht,
          (login w (instanceOf w) w.username w.password).2 ++ (getCoverage w iu2 sid2).2
            ++ [Event.mkdir "./coverage"], by simp, ?_⟩
        intro e he
        rcases List.mem_append.1 he with he | he
        · exact hearly e he
        · simp only [List.mem_singleton] at he
          subst he
          intro hc
          cases hc
  · rcases apexcov_cases w with ⟨_, _, ha⟩ | ⟨_, _, ha⟩ | ⟨_, _, _, _, _, ha⟩
        | ⟨_, iu2, sid2, _, _, ha⟩
        | ⟨_, iu2, sid2, _, _, _, _, ha⟩ | ⟨_, iu2, sid2, _, _, _, _, ha⟩
        | ⟨_, iu2, sid2, _, _, _, _, _, ha⟩
    · rw [ha] at hcrash; cases hcrash
    · rw [ha]; intro e he; rw [hlog e he]; decide
    · rw [ha] at hcrash; cases hcrash
    · rw [ha]; exact h12 iu2 sid2
    · rw [ha] at hcrash; cases hcrash
    · rw [ha]; exact h12 iu2 sid2
    · rw [ha] at hcrash; cases hcrash
  · have h1 := pairwise_of_same_step 1 _ hlog
    have hle : ∀ e ∈ (login w (instanceOf w) w.username w.password).2, e.step ≤ 1 :=
      fun e he => le_of_eq (hlog e he)
    rcases apexcov_cases w with ⟨_, _, ha⟩ | ⟨_, _, ha⟩ | ⟨_, _, _, _, _, ha⟩
        | ⟨_, iu2, sid2, _, _, ha⟩
        | ⟨_, iu2, sid2, _, _, _, _, ha⟩ | ⟨_, iu2, sid2, _, _, _, _, ha⟩
        | ⟨_, iu2, sid2, _, body2, _, _, _, ha⟩
    · rw [ha]; exact List.Pairwise.nil
    · rw [ha]; exact h1
    · rw [ha]; exact h1
    · rw [ha]
      exact pairwise_append_steps 1 2 (by decide) _ _ h1 hle (getCoverage_events w iu2 sid2)
    · rw [ha]
      exact pairwise_append_steps 1 2 (by decide) _ _ h1 hle (getCoverage_events w iu2 sid2)
    · rw [ha]
      exact pairwise_append_steps 1 2 (by decide) _ _ h1 hle (getCoverage_events w iu2 sid2)
    · rw [ha]
      exact pairwise_append_steps 2 3 (by decide) _ _
        (pairwise_append_steps 1 2 (by decide) _ _ h1 hle (getCoverage_events w iu2 sid2))
        (h12 iu2 sid2) (persistCoverage_events w body2)

/-- C7: in `worldWriteFails` every step up to the write succeeds and the write of
`./coverage/lcov.info` fails; `persistCoverage` returns the error, and `apexcov`
returns `nil` (exit status zero). The error returned by `apexcov` is the same
whatever the write does. -/
theorem persist_failure_is_not_reported :
    (persistCoverage worldWriteFails
        "TN:\nSF:/w/classes/Foo.cls\nDA:3,1\nDA:5,1\nDA:4,0\nend_of_record\nSF:/w/triggers/Baz.trigger\nDA:7,1\nend_of_record\n").1
      = some "open ./coverage/lcov.info: permission denied"
    ∧ Event.writeFile "./coverage/lcov.info"
        "TN:\nSF:/w/classes/Foo.cls\nDA:3,1\nDA:5,1\nDA:4,0\nend_of_record\nSF:/w/triggers/Baz.trigger\nDA:7,1\nend_of_record\n"
        ∈ (apexcov worldWriteFails).2
    ∧ (apexcov worldWriteFails).1 = Run.done none := by
  decide

theorem apexcov_stops_at_first_failure_witness :
    (∃ msg : String, apexcov worldNoUsername = (Run.done (some ⟨msg, 1⟩), []))
    ∧ (∀ e ∈ (apexcov (worldWithLogin ⟨200, sampleFaultBody, none⟩)).2, e.step = 1)
    ∧ (∀ e ∈ (apexcov worldFetchFails).2, e.step ≤ 2)
    ∧ (∃ (iu sid : String) (data : CoverageResponse),
        (login sampleWorld (instanceOf sampleWorld) sampleWorld.username
            sampleWorld.password).1 = Run.done (iu, sid, none)
        ∧ (getCoverage sampleWorld iu sid).1 = Run.done (data, none)
        ∧ translate sampleWorld.getwd sampleWorld.stat data.Records
            = Run.done "TN:\nSF:/w/classes/Foo.cls\nDA:3,1\nDA:5,1\nDA:4,0\nend_of_record\nSF:/w/triggers/Baz.trigger\nDA:7,1\nend_of_record\n"
        ∧ ∃ earlier : List Event,
            (apexcov sampleWorld).2
              = earlier ++ [Event.writeFile "./coverage/lcov.info" "TN:\nSF:/w/classes/Foo.cls\nDA:3,1\nDA:5,1\nDA:4,0\nend_of_record\nSF:/w/triggers/Baz.trigger\nDA:7,1\nend_of_record\n"]
            ∧ ∀ e ∈ earlier, e ≠ Event.writeFile "./coverage/lcov.info" "TN:\nSF:/w/classes/Foo.cls\nDA:3,1\nDA:5,1\nDA:4,0\nend_of_record\nSF:/w/triggers/Baz.trigger\nDA:7,1\nend_of_record\n")
    ∧ (∀ e ∈ (apexcov worldNoCoverageRequest).2, e.step ≤ 2) :=
  ⟨(apexcov_stops_at_first_failure worldNoUsername).1 (Or.inl rfl),
   ((apexcov_stops_at_first_failure (worldWithLogin ⟨200, sampleFaultBody, none⟩)).2.1
      ⟨by decide, by decide, by decide⟩ "" ""
      "INVALID_LOGIN: Invalid username, password, security token; or user locked out."
      (by decide)).2,
   ((apexcov_stops_at_first_failure worldFetchFails).2.2.1
      ⟨by decide, by decide, by decide⟩ "https://na1.salesforce.com" "00D!AQ" ⟨[]⟩
      "dial tcp: i/o timeout" (by decide) (by decide)).2,
   ((apexcov_stops_at_first_failure sampleWorld).2.2.2.1 "./coverage/lcov.info"
      "TN:\nSF:/w/classes/Foo.cls\nDA:3,1\nDA:5,1\nDA:4,0\nend_of_record\nSF:/w/triggers/Baz.trigger\nDA:7,1\nend_of_record\n"
      (by decide)).2.2.2,
   (apexcov_stops_at_first_failure worldNoCoverageRequest).2.2.2.2.1 (by decide)⟩

end Apexcov
